import Mathlib

/-!
Verification of the UKB-RAP-Notebooks-Genomics repository against its
natural-language specification.

The repository holds four Jupyter notebook files (the G204 file contains two
notebook documents: the height PRS notebook and the hypertension PRS
notebook, so five notebook programs in total).  Each notebook is a linear
sequence of cells.  We embed each program as a list of statements in a small
statement language transcribed cell by cell from the notebook sources, and
we embed the few pieces of bespoke data manipulation (the pandas binary
split, the RMSE function, the train/test split, the case/control sample)
as executable Lean functions.
-/

/-! ## Statement-level embedding of the notebook programs -/

/-- Conditions appearing in `if` statements of the notebook code.  The only
conditions present in the sources are package-availability checks
`if(!require(pkg))`, a check that a directory listing for a backing-file
pattern is nonempty, and a check of the minor version of R. -/
inductive Cond where
  | notRequire (pkg : String)
  | dirNonempty (pat : String)
  | rVersionMinorLt (threshold : String)
deriving DecidableEq

/-- Argument values passed to library calls: numeric and string literals,
logical literals, references to variables, the expression
`round(nb_cores()/2)` from the hypertension PRS notebook, and a catch-all
for compound expressions whose internal structure no claim depends on
(the source text is kept as a description). -/
inductive Arg where
  | num (n : Int)
  | str (s : String)
  | boolLit (b : Bool)
  | var (v : String)
  | roundHalfNbCores
  | exprOther (desc : String)
deriving DecidableEq

/-- Statements of the notebook programs.  `importLib` is a Python import,
`loadPkgs` an R `pacman::p_load`, `installPkgs` an `install.packages` or
`BiocManager::install`, `shell` a shell invocation of the platform CLI
(via `os.popen`, `system` or `%%bash`; shell quoting characters are elided
from the transcribed command text), `readFile`/`writeFile` local file input
and output, `libCall` a call into an external library, `assign` a plain
assignment, `transform` an in-place data-frame manipulation kept as source
text, `defineFn` a local function definition, `display` a bare expression
cell that prints its value.  `tryCatch` (an exception handler) is part of
the language so that its absence from every program is a statement about
the sources, not an artifact of the embedding; the same holds for the
`Cond` constructors. -/
inductive Stmt where
  | importLib (name : String)
  | loadPkgs (pkgs : List String)
  | installPkgs (pkgs : List String)
  | shell (lhs : Option String) (cmd : String)
  | readFile (lhs : Option String) (fn : String) (path : String)
  | writeFile (fn : String) (path : String)
  | libCall (lhs : Option String) (fn : String) (args : List (String × Arg))
  | assign (lhs : String) (rhs : Arg)
  | transform (desc : String)
  | defineFn (fname : String) (body : String)
  | display (e : String)
  | ifStmt (c : Cond) (body : Stmt)
  | ifElse (c : Cond) (thenBody elseBody : Stmt)
  | tryCatch (body handler : Stmt)
deriving DecidableEq

/-- Notebook G103 (Python): retrieve participant data for Hail GWAS. -/
def nbG103 : List Stmt := [
  .importLib "dxdata",
  .importLib "os",
  .libCall (some "engine") "dxdata.connect" [("dialect", .str "hive+pyspark")],
  .shell (some "project") "dx env | grep project- | awk -F \x09 \x7bprint $2\x7d",
  .shell (some "record") "dx describe *dataset | grep  record- | awk -F   \x7bprint $2\x7d",
  .assign "DATASET_ID" (.exprOther "project .. record"),
  .libCall (some "dataset") "dxdata.load_dataset" [("id", .var "DATASET_ID")],
  .assign "pheno" (.exprOther "dataset[participant]"),
  .libCall (some "field_eid") "pheno.find_field" [("name", .str "eid")],
  .libCall (some "smk") "pheno.find_field"
    [("title", .str "Current tobacco smoking | Instance 0")],
  .assign "field_list" (.exprOther "[field_eid, smk]"),
  .display "field_list",
  .libCall (some "pheno_data") "pheno.retrieve_fields"
    [("engine", .var "engine"), ("fields", .var "field_list"),
     ("coding_values", .str "replace")],
  .display "pheno_data",
  .libCall (some "data_tab") "pheno_data.toPandas" [],
  .transform "data_tab.p1239_i0[data_tab.p1239_i0 != No] = true",
  .transform "data_tab.p1239_i0[data_tab.p1239_i0 == No] = false",
  .transform "data_tab.columns = [eid, smoking]",
  .writeFile "to_csv" "smoking_bool.csv",
  .shell none "dx mkdir pheno",
  .shell none "dx upload smok* --path pheno/"
]

/-- Height PRS notebook (first document of the G204 file, R). -/
def nbG204Height : List Stmt := [
  .ifStmt (.notRequire "pacman") (.installPkgs ["pacman"]),
  .loadPkgs ["dplyr", "bigsnpr", "ggplot2", "readr", "tidyr", "bigparallelr"],
  .shell none "dx download -fr bed_maf/maf_flt_8chroms*",
  .readFile (some "exome_eids") "read_table" "maf_flt_8chroms.fam",
  .display "str(exome_eids)",
  .transform "pheno <- tibble(eid=exome_eids) filter(eid>0) sample_n(2500) mutate(height = round(rnorm(length(eid), 177.8, 5.97)))",
  .libCall (some "bedfile") "normalizePath" [("path", .str "maf_flt_8chroms.bed")],
  .libCall (some "tmpfile") "normalizePath"
    [("path", .str "bigsnpr_input_prc_height"), ("mustWork", .boolLit false)],
  .ifStmt (.dirNonempty "tmpfile")
    (.libCall none "unlink" [("x", .exprOther "dir(pattern=tmpfile)")]),
  .libCall none "snp_readBed2"
    [("bedfile", .var "bedfile"), ("backingfile", .var "tmpfile"),
     ("ind.row", .exprOther "which(exome_eids in pheno$eid)")],
  .libCall (some "obj.bigSNP") "snp_attach" [("file", .exprOther "paste0(tmpfile, .rds)")],
  .display "str(obj.bigSNP)",
  .assign "NCORES" (.num 1),
  .assign "G" (.exprOther "obj.bigSNP$genotypes"),
  .assign "CHR" (.exprOther "obj.bigSNP$map$chromosome"),
  .assign "POS" (.exprOther "obj.bigSNP$map$physical.pos"),
  .libCall (some "ind.excl") "snp_indLRLDR"
    [("infos.chr", .exprOther "as.integer(as.factor(CHR))"), ("infos.pos", .var "POS")],
  .libCall (some "ind.keep") "snp_clumping"
    [("G", .var "G"), ("infos.chr", .exprOther "as.integer(as.factor(CHR))"),
     ("exclude", .var "ind.excl"), ("ncores", .var "NCORES")],
  .libCall (some "obj.svd") "big_randomSVD"
    [("X", .var "G"), ("fun.scaling", .exprOther "snp_scaleBinom()"),
     ("ind.col", .var "ind.keep"), ("ncores", .var "NCORES")],
  .libCall (some "ind.train") "sample"
    [("x", .exprOther "nrow(G)"), ("size", .num 2000)],
  .libCall (some "ind.test") "setdiff"
    [("x", .exprOther "rows_along(G)"), ("y", .var "ind.train")],
  .libCall (some "cmsa.lin") "big_spLinReg"
    [("X", .var "G"), ("y.train", .exprOther "pheno$height[ind.train]"),
     ("ind.train", .var "ind.train"),
     ("covar.train", .exprOther "obj.svd$u[ind.train, ]"),
     ("alphas", .exprOther "c(1, 0.5, 0.05, 0.001)"), ("ncores", .var "NCORES")],
  .libCall (some "preds") "predict"
    [("object", .var "cmsa.lin"), ("X", .var "G"), ("ind.row", .var "ind.test"),
     ("covar.row", .exprOther "obj.svd$u[ind.test, ]")],
  .defineFn "RMSE" "sqrt(mean((m - o)^2))",
  .display "RMSE(preds, pheno$height[ind.test])",
  .display "RMSE(rep(177.8, length(ind.test)), pheno$height[ind.test])",
  .display "cor(preds, pheno$height[ind.test])^2"
]

/-- Hypertension PRS notebook (second document of the G204 file, R). -/
def nbG204Hyper : List Stmt := [
  .ifStmt (.notRequire "pacman") (.installPkgs ["pacman"]),
  .loadPkgs ["dplyr", "parallel", "bigsnpr", "ggplot2", "readr", "tidyr",
    "bigparallelr", "skimr"],
  .shell none "dx download -r pheno/pheno_data_hypertension.csv",
  .readFile (some "pheno0") "read_csv" "pheno_data_hypertension.csv",
  .display "pheno0[1:4,2:8]",
  .shell none "dx download -r bed_maf/maf_flt_8chroms*",
  .readFile (some "exome_eids") "read_tsv" "maf_flt_8chroms.fam",
  .transform "pheno <- pheno0 filter(eid in exome_eids) drop_na",
  .transform "smpl <- rbind(pheno filter(medical_records & self_reported & blood_pressure_cutoff), pheno filter(!medical_records & !self_reported & !blood_pressure_cutoff) sample_n(10000))",
  .display "head(smpl[1:4,2:8])",
  .libCall (some "bedfile") "normalizePath" [("path", .str "maf_flt_8chroms.bed")],
  .libCall (some "tmpfile") "normalizePath"
    [("path", .str "bigsnpr_hypertension_smpl"), ("mustWork", .boolLit false)],
  .ifStmt (.dirNonempty "tmpfile")
    (.libCall none "unlink" [("x", .exprOther "dir(pattern=tmpfile)")]),
  .libCall none "snp_readBed2"
    [("bedfile", .var "bedfile"), ("backingfile", .var "tmpfile"),
     ("ind.row", .exprOther "which(exome_eids in smpl$eid)")],
  .libCall (some "genotypes_smpl") "snp_attach"
    [("file", .exprOther "paste0(tmpfile, .rds)")],
  .display "str(genotypes_smpl)",
  .libCall none "options" [("bigstatsr.check.parallel.blas", .boolLit false)],
  .assign "NCORES" .roundHalfNbCores,
  .libCall none "assert_cores" [("ncores", .var "NCORES")],
  .libCall none "message" [("text", .exprOther "INFO: Using NCORES cores")],
  .assign "G" (.exprOther "genotypes_smpl$genotypes"),
  .assign "CHR" (.exprOther "genotypes_smpl$map$chromosome"),
  .assign "POS" (.exprOther "genotypes_smpl$map$physical.pos"),
  .libCall (some "ind.excl") "snp_indLRLDR"
    [("infos.chr", .exprOther "as.integer(as.factor(CHR))"), ("infos.pos", .var "POS")],
  .libCall (some "ind.keep") "snp_clumping"
    [("G", .var "G"), ("infos.chr", .exprOther "as.integer(as.factor(CHR))"),
     ("exclude", .var "ind.excl"), ("ncores", .var "NCORES")],
  .libCall (some "obj.svd") "big_randomSVD"
    [("X", .var "G"), ("fun.scaling", .exprOther "snp_scaleBinom()"),
     ("ind.col", .var "ind.keep"), ("ncores", .var "NCORES")],
  .transform "pca <- cbind(genotypes_smpl$fam$sample.ID, obj.svd$u)",
  .transform "colnames(pca) <- c(eid, PC1..PC10)",
  .transform "pca <- pca as_tibble left_join(smpl, by = eid)",
  .display "pca skim [c(1:8, 11, 14)]",
  .libCall (some "ind.train") "sample"
    [("x", .exprOther "nrow(G)"), ("size", .exprOther "nrow(G)*0.8")],
  .libCall (some "ind.test") "setdiff"
    [("x", .exprOther "rows_along(G)"), ("y", .var "ind.train")],
  .display "length(ind.train)",
  .display "length(ind.test)",
  .libCall (some "cmsa.logit") "big_spLogReg"
    [("X", .var "G"),
     ("y01.train", .exprOther "as.numeric(pca$medical_records & pca$self_reported & pca$blood_pressure_cutoff)[ind.train]"),
     ("ind.train", .var "ind.train"),
     ("covar.train", .exprOther "obj.svd$u[ind.train, ]"),
     ("alphas", .exprOther "c(1, 0.5, 0.05, 0.001)"), ("ncores", .var "NCORES")],
  .libCall (some "preds") "predict"
    [("object", .var "cmsa.logit"), ("X", .var "G"), ("ind.row", .var "ind.test"),
     ("covar.row", .exprOther "obj.svd$u[ind.test, ]")],
  .display "AUC(preds, as.numeric(pca$medical_records & pca$self_reported & pca$blood_pressure_cutoff)[ind.test])"
]

/-- Notebook G206 (R): annotate SNPs to dbSNP and profile ontologies. -/
def nbG206 : List Stmt := [
  .ifStmt (.notRequire "pacman") (.installPkgs ["pacman"]),
  .loadPkgs ["dplyr", "skimr", "readr", "gprofiler2"],
  .ifElse (.rVersionMinorLt "3.0")
    (.assign "version" (.str "3.16")) (.assign "version" (.str "3.17")),
  .installPkgs [],
  .ifStmt (.notRequire "GenomicRanges") (.installPkgs ["GenomicRanges"]),
  .ifStmt (.notRequire "SNPlocs.Hsapiens.dbSNP155.GRCh38")
    (.installPkgs ["SNPlocs.Hsapiens.dbSNP155.GRCh38"]),
  .loadPkgs ["GenomicRanges", "SNPlocs.Hsapiens.dbSNP155.GRCh38"],
  .shell none "dx download gwas/height_signif_snp.csv",
  .readFile (some "snp") "readr::read_csv" "height_signif_snp.csv",
  .display "head(snp)",
  .libCall (some "snp_gr") "makeGRangesFromDataFrame"
    [("df", .var "snp"), ("seqnames.field", .str "chromosome"),
     ("start.field", .str "physical.pos"), ("end.field", .str "physical.pos"),
     ("keep.extra.columns", .boolLit true)],
  .display "snp_gr",
  .assign "snps" (.exprOther "SNPlocs.Hsapiens.dbSNP155.GRCh38"),
  .display "snpcount(snps) as_tibble head",
  .libCall (some "my_snps") "snpsByOverlaps"
    [("x", .var "snps"), ("ranges", .var "snp_gr")],
  .display "my_snps",
  .libCall (some "gostres") "gost"
    [("query", .exprOther "my_snps$RefSNP_id"), ("organism", .str "hsapiens"),
     ("significant", .boolLit false)],
  .libCall (some "p") "gostplot"
    [("gostres", .var "gostres"), ("capped", .boolLit false)],
  .display "p",
  .display "gostres$result",
  .libCall none "gsnpense" [("query", .exprOther "my_snps$RefSNP_id")]
]

/-- Notebook G207 (R): functional annotations for variants. -/
def nbG207 : List Stmt := [
  .ifStmt (.notRequire "pacman") (.installPkgs ["pacman"]),
  .loadPkgs ["dplyr", "skimr", "readr", "gprofiler2"],
  .ifElse (.rVersionMinorLt "3.0")
    (.assign "version" (.str "3.16")) (.assign "version" (.str "3.17")),
  .ifStmt (.notRequire "GenomicRanges") (.installPkgs ["GenomicRanges"]),
  .ifStmt (.notRequire "VariantAnnotation") (.installPkgs ["VariantAnnotation"]),
  .ifStmt (.notRequire "TxDb.Hsapiens.UCSC.hg38.knownGene")
    (.installPkgs ["TxDb.Hsapiens.UCSC.hg38.knownGene"]),
  .ifStmt (.notRequire "BSgenome.Hsapiens.UCSC.hg38")
    (.installPkgs ["BSgenome.Hsapiens.UCSC.hg38"]),
  .loadPkgs ["TxDb.Hsapiens.UCSC.hg38.knownGene", "BSgenome.Hsapiens.UCSC.hg38",
    "VariantAnnotation", "GenomicRanges"],
  .shell none "dx download gwas/height_signif_snp.csv",
  .readFile (some "snp") "readr::read_csv" "./height_signif_snp.csv",
  .display "head(snp)",
  .libCall (some "snp_gr") "makeGRangesFromDataFrame"
    [("df", .var "snp"), ("seqnames.field", .str "chromosome"),
     ("start.field", .str "physical.pos"), ("end.field", .str "physical.pos"),
     ("keep.extra.columns", .boolLit true)],
  .display "head(snp_gr)",
  .libCall (some "vr") "VRanges"
    [("seqnames", .exprOther "seqnames(snp_gr)"), ("ranges", .exprOther "ranges(snp_gr)"),
     ("ref", .exprOther "snp_gr$allele1"), ("alt", .exprOther "snp_gr$allele2")],
  .transform "seqlevelsStyle(vr) <- seqlevelsStyle(TxDb.Hsapiens.UCSC.hg38.knownGene)",
  .display "head(vr)",
  .libCall (some "coding") "predictCoding"
    [("query", .var "vr"), ("subject", .exprOther "TxDb.Hsapiens.UCSC.hg38.knownGene"),
     ("seqSource", .exprOther "BSgenome.Hsapiens.UCSC.hg38")],
  .display "head(coding)",
  .libCall (some "cds") "locateVariants"
    [("query", .var "vr"), ("subject", .exprOther "TxDb.Hsapiens.UCSC.hg38.knownGene"),
     ("region", .exprOther "CodingVariants()")],
  .display "head(cds)",
  .libCall (some "five") "locateVariants"
    [("query", .var "vr"), ("subject", .exprOther "TxDb.Hsapiens.UCSC.hg38.knownGene"),
     ("region", .exprOther "FiveUTRVariants()")],
  .display "head(five)",
  .libCall (some "splice") "locateVariants"
    [("query", .var "vr"), ("subject", .exprOther "TxDb.Hsapiens.UCSC.hg38.knownGene"),
     ("region", .exprOther "SpliceSiteVariants()")],
  .display "head(splice)",
  .libCall (some "intron") "locateVariants"
    [("query", .var "vr"), ("subject", .exprOther "TxDb.Hsapiens.UCSC.hg38.knownGene"),
     ("region", .exprOther "IntronVariants()")],
  .display "head(intron)",
  .display "lengths(list(cds=cds, five=five, splice=splice, intron=intron))",
  .libCall none "gconvert"
    [("query", .exprOther "unique(coding$GENEID)"), ("organism", .str "hsapiens"),
     ("numeric_ns", .str "ENTREZGENE_ACC")]
]

/-- The five notebook programs of the repository, in file order (the G204
file holds the height and hypertension documents). -/
def allNotebooks : List (List Stmt) :=
  [nbG103, nbG204Height, nbG204Hyper, nbG206, nbG207]

/-! ## Structural predicates over the embedded programs -/

/-- A statement together with the statements nested inside its branches. -/
def subStmts : Stmt → List Stmt
  | .ifStmt c b => .ifStmt c b :: subStmts b
  | .ifElse c b1 b2 => .ifElse c b1 b2 :: (subStmts b1 ++ subStmts b2)
  | .tryCatch b h => .tryCatch b h :: (subStmts b ++ subStmts h)
  | s => [s]

/-- All statements of a program, including nested ones. -/
def allStmts (p : List Stmt) : List Stmt := (p.map subStmts).flatten

/-- Whether a statement is an exception handler. -/
def isTryCatch : Stmt → Bool
  | .tryCatch _ _ => true
  | _ => false

/-- The condition tested by a conditional statement, if any. -/
def condsHere : Stmt → List Cond
  | .ifStmt c _ => [c]
  | .ifElse c _ _ => [c]
  | _ => []

/-- Whether a condition checks the failure of a library invocation.
`require(pkg)` returns FALSE when loading the package fails, so a
`if(!require(pkg))` guard checks that failure; the directory-listing and
R-version conditions inspect environment state, not the outcome of a
failed invocation. -/
def checksInvocationFailure : Cond → Bool
  | .notRequire _ => true
  | _ => false

/-- All failure-checking conditions of a program. -/
def failureChecks (p : List Stmt) : List Cond :=
  (((allStmts p).map condsHere).flatten).filter checksInvocationFailure

/-- The claim of the spec: the program neither installs an exception
handler nor checks the failure of any library or CLI invocation. -/
def noErrorHandling (p : List Stmt) : Bool :=
  ((allStmts p).all (fun s => !isTryCatch s)) && (failureChecks p).isEmpty

/-- Arguments of a library call statement. -/
def callArgs : Stmt → List (String × Arg)
  | .libCall _ _ as => as
  | _ => []

/-- The values passed as the `ncores` argument anywhere in a program. -/
def ncoresArgs (p : List Stmt) : List Arg :=
  ((((allStmts p).map callArgs).flatten).filter (fun pa => pa.1 == "ncores")).map Prod.snd

/-- Assignment statements of a program (target and value). -/
def assignsHere : Stmt → List (String × Arg)
  | .assign l r => [(l, r)]
  | _ => []

/-- The values assigned to the variable NCORES anywhere in a program. -/
def ncoresAssignments (p : List Stmt) : List Arg :=
  ((((allStmts p).map assignsHere).flatten).filter (fun pa => pa.1 == "NCORES")).map Prod.snd

/-- Library functions that would create parallel or concurrent execution
themselves (R cluster and fork primitives, Python thread and process
pools).  None are called by the notebooks. -/
def concurrencyPrimitives : List String :=
  ["makeCluster", "stopCluster", "registerDoParallel", "mclapply", "parLapply",
   "clusterApply", "future", "plan", "multiprocessing.Pool", "threading.Thread"]

/-- Whether a statement invokes a concurrency primitive. -/
def isConcurrencyPrimitive : Stmt → Bool
  | .libCall _ fn _ => concurrencyPrimitives.contains fn
  | _ => false

/-- Whether the first string is a prefix of the second (on the character
lists of the strings). -/
def strHasPrefix (p s : String) : Bool := p.data.isPrefixOf s.data

/-- Whether a shell command writes to the project storage area. -/
def isUploadCmd (cmd : String) : Bool :=
  strHasPrefix "dx mkdir" cmd || strHasPrefix "dx upload" cmd

/-- The steps of the script-like schema a statement can belong to:
1 install or import, 2 fetch inputs over the platform CLI, 3 transform or
analyze with library calls, 4 write or display a result.  A display cell
can show an intermediate (part of the analysis, step 3) or the final
result (step 4); a plain assignment can set up configuration (step 1) or
participate in the analysis (step 3); the `dxdata.connect` call is the
engine initialization that the source groups with the import step. -/
def phases : Stmt → List Nat
  | .importLib _ => [1]
  | .loadPkgs _ => [1]
  | .installPkgs _ => [1]
  | .shell _ cmd => if isUploadCmd cmd then [4] else [2]
  | .readFile _ _ _ => [3]
  | .writeFile _ _ => [4]
  | .libCall _ fn _ => if fn == "dxdata.connect" then [1, 3] else [3]
  | .assign _ _ => [1, 3]
  | .transform _ => [3]
  | .defineFn _ _ => [3]
  | .display _ => [3, 4]
  | .ifStmt _ b => phases b
  | .ifElse _ b _ => phases b
  | .tryCatch _ _ => [3]

/-- Greedy check that the statements can be assigned nondecreasing steps:
each statement takes the smallest step allowed for it that is not below
the step reached so far. -/
def conformsFrom (ph : Stmt → List Nat) : Nat → List Stmt → Bool
  | _, [] => true
  | c, s :: rest =>
    match (ph s).find? (fun q => c ≤ q) with
    | none => false
    | some q => conformsFrom ph q rest

/-- Whether a program conforms to the four-step order of the spec. -/
def conforms (p : List Stmt) : Bool := conformsFrom phases 1 p

/-- Step assignment that additionally allows a platform-CLI fetch to occur
during the transform step (a repeated input fetch). -/
def phasesRefetch (s : Stmt) : List Nat :=
  match s with
  | .shell _ cmd => if isUploadCmd cmd then [4] else [2, 3]
  | _ => phases s

/-- Whether a program conforms to the four-step order once repeated input
fetches during the transform step are allowed. -/
def conformsRefetch (p : List Stmt) : Bool := conformsFrom phasesRefetch 1 p

/-- Whether a condition inspects the contents of loaded data (none of the
conditions occurring in the sources do). -/
def checksDataContent : Cond → Bool
  | .notRequire _ => false
  | .dirNonempty _ => false
  | .rVersionMinorLt _ => false

/-- Library functions that would assert or validate data contents. -/
def validationCalls : List String :=
  ["stopifnot", "assert_that", "validate", "expect_equal", "all.equal"]

/-- Whether a statement validates data: an assertion call, a conditional
on data contents, or an exception handler. -/
def isValidationStmt : Stmt → Bool
  | .libCall _ fn _ => validationCalls.contains fn
  | .ifStmt c _ => checksDataContent c
  | .ifElse c _ _ => checksDataContent c
  | .tryCatch _ _ => true
  | _ => false

/-- Whether a program reads the given file path. -/
def readsPath (p : List Stmt) (path : String) : Bool :=
  (allStmts p).any (fun s =>
    match s with
    | .readFile _ _ pa => pa == path
    | _ => false)

/-- Whether a program writes the given file path. -/
def writesPath (p : List Stmt) (path : String) : Bool :=
  (allStmts p).any (fun s =>
    match s with
    | .writeFile _ pa => pa == path
    | _ => false)

/-- The shell commands issued by a program, in order. -/
def shellCmds (p : List Stmt) : List String :=
  (allStmts p).filterMap (fun s =>
    match s with
    | .shell _ cmd => some cmd
    | _ => none)

/-- Whether a shell command is one of the platform-CLI forms the spec
enumerates for storage and environment interaction. -/
def dxStorageCmd (cmd : String) : Bool :=
  ["dx env", "dx describe", "dx download", "dx mkdir", "dx upload"].any
    (fun pre => strHasPrefix pre cmd)

/-- The local file paths read or written by a program. -/
def filePaths (p : List Stmt) : List String :=
  (allStmts p).filterMap (fun s =>
    match s with
    | .readFile _ _ pa => some pa
    | .writeFile _ pa => some pa
    | _ => none)

/-- A path is local when it carries no remote scheme or project qualifier
(both would use a colon). -/
def isLocalPath (s : String) : Bool := !(s.data.contains ':')

/-! ## Notebook G103: the binary split of the smoking column

The column `p1239_i0` of the pandas data frame is a column of strings with
possible missing values; `none` models a missing entry (NaN).  The two
chained assignments of the notebook are elementwise: the first sets every
entry whose value is not the string No (a missing value compares as
not-equal in pandas) to the string true, the second sets every entry equal
to No to the string false. -/

/-- First assignment: `data_tab.p1239_i0[data_tab.p1239_i0 != No] = true`. -/
def binarySplitStep1 (col : List (Option String)) : List (Option String) :=
  col.map (fun x => if x ≠ some "No" then some "true" else x)

/-- Second assignment: `data_tab.p1239_i0[data_tab.p1239_i0 == No] = false`. -/
def binarySplitStep2 (col : List (Option String)) : List (Option String) :=
  col.map (fun x => if x = some "No" then some "false" else x)

/-- The two assignments in the order the notebook performs them. -/
def binarySplit (col : List (Option String)) : List (Option String) :=
  binarySplitStep2 (binarySplitStep1 col)

/-! ## PRS notebooks: train/test split of the rows of the genotype matrix -/

/-- The row indices of a matrix with `n` rows, as in bigstatsr
`rows_along(G)` (R indexing starts at 1). -/
def rows_along (n : ℕ) : List ℕ := (List.range n).map (fun i => i + 1)

/-- R `setdiff(x, y)`: the elements of `x` that are not in `y`, without
duplicates. -/
def setdiff (x y : List ℕ) : List ℕ :=
  (x.filter (fun a => decide (a ∉ y))).dedup

/-! ## Hypertension PRS notebook: case/control sample and training label -/

/-- A phenotype record of the hypertension table: the participant id and
the three hypertension indicators. -/
structure Participant where
  eid : ℕ
  medical_records : Bool
  self_reported : Bool
  blood_pressure_cutoff : Bool
deriving DecidableEq

/-- A case: all three indicators hold, as in the first filter
`medical_records & self_reported & blood_pressure_cutoff`. -/
def isCase (r : Participant) : Bool :=
  r.medical_records && r.self_reported && r.blood_pressure_cutoff

/-- A control: none of the indicators holds, as in the second filter
`!medical_records & !self_reported & !blood_pressure_cutoff`. -/
def isControl (r : Participant) : Bool :=
  !r.medical_records && !r.self_reported && !r.blood_pressure_cutoff

/-- The rows kept by the case filter. -/
def caseRows (pheno : List Participant) : List Participant := pheno.filter isCase

/-- The rows kept by the control filter, from which `sample_n(10000)`
draws the control sample. -/
def controlRows (pheno : List Participant) : List Participant := pheno.filter isControl

/-- The analysis sample `smpl`: the cases bound by `rbind` to a sample of
the controls (the sample is any selection from the control rows). -/
def smplOf (pheno ctrlSample : List Participant) : List Participant :=
  caseRows pheno ++ ctrlSample

/-- The training label `as.numeric(medical_records & self_reported &
blood_pressure_cutoff)` of a record. -/
def trainLabel (r : Participant) : ℕ := if isCase r then 1 else 0

/-! ## Height PRS notebook: RMSE and the simulated phenotype

The notebook simulates heights as `rnorm(length(eid), 177.8, 5.97) %>%
round` and defines `RMSE = function(m, o) sqrt(mean((m - o)^2))`.  The
null model of the narration is `rep(177.8, length(ind.test))`.  A draw
from the normal distribution with mean 177.8 and standard deviation 5.97
is `177.8 + 5.97 * t` where `t` is a standard normal draw; the list `z`
of standardized draws is the only randomness of the simulation. -/

/-- The mean of a list of reals, as R `mean`. -/
noncomputable def meanList (l : List ℝ) : ℝ := l.sum / l.length

/-- The RMSE function defined in the height PRS notebook:
`RMSE = function(m, o) sqrt(mean((m - o)^2))`, elementwise on two vectors
of equal length. -/
noncomputable def RMSE (m o : List ℝ) : ℝ :=
  Real.sqrt (meanList (List.zipWith (fun a b => (a - b) ^ 2) m o))

/-- The mean of the simulated height distribution. -/
noncomputable def simMean : ℝ := 177.8

/-- The standard deviation of the simulated height distribution. -/
noncomputable def simSD : ℝ := 5.97

/-- The simulated heights `round(rnorm(n, 177.8, 5.97))` expressed through
the standardized draws `z`. -/
noncomputable def simHeights (z : List ℝ) : List ℝ :=
  z.map (fun t => ((round (simMean + simSD * t) : ℤ) : ℝ))

/-- The null model `rep(177.8, length(ind.test))`: the constant predictor
at the simulated mean. -/
noncomputable def nullPredictor (n : ℕ) : List ℝ := List.replicate n simMean

/-! ## Notebook G103: the dxdata participant table model

Modelled from the spec: the `dxdata` library is not part of the
repository sources; the spec describes a phenotype field as a named/coded
column in a participant table, identified by a field ID and instance
index, fetched by query, and the notebook requests `coding_values =
replace`, replacing coded values by their meanings.  A table is a list of
fields; each field carries its column of raw values and its coding
dictionary. -/

/-- A field (column) of the participant table. -/
structure PhenoField where
  fname : String
  title : String
  fieldId : Option ℕ
  instanceIdx : Option ℕ
  values : List String
  coding : List (String × String)
deriving DecidableEq

/-- Modelled from the spec: `find_field(name=...)` returns the first field
of the table with the given name. -/
def find_field_name (t : List PhenoField) (n : String) : Option PhenoField :=
  t.find? (fun f => f.fname == n)

/-- Modelled from the spec: `find_field(title=...)` returns the first
field of the table with the given title. -/
def find_field_title (t : List PhenoField) (ti : String) : Option PhenoField :=
  t.find? (fun f => f.title == ti)

/-- Modelled from the spec: with `coding_values = replace`, a raw value is
replaced by the meaning its coding assigns to it, and kept as is when the
coding does not list it. -/
def decodeValue (coding : List (String × String)) (v : String) : String :=
  match coding.find? (fun q => q.1 == v) with
  | some q => q.2
  | none => v

/-- Modelled from the spec: `retrieve_fields(fields=..., coding_values =
replace)` returns, for exactly the requested fields in order, the column
of that field with coded values replaced by their meanings. -/
def retrieve_fields (flds : List PhenoField) : List (String × List String) :=
  flds.map (fun f => (f.fname, f.values.map (decodeValue f.coding)))

/-- The title by which notebook G103 looks up field 1239 instance 0. -/
def smokingTitle : String := "Current tobacco smoking | Instance 0"

/-- A concrete eid field used to witness the field-query theorem. -/
def eidFieldWit : PhenoField :=
  ⟨"eid", "Participant ID", none, none, ["1001", "1002"], []⟩

/-- A concrete field 1239 instance 0 used to witness the field-query
theorem, with the coding of data-field 1239. -/
def smokingFieldWit : PhenoField :=
  ⟨"p1239_i0", smokingTitle, some 1239, some 0, ["1", "0"],
   [("1", "Yes, on most or all days"), ("0", "No")]⟩

/-! ## Helper lemmas -/

/-- The sum of a mapped list as a sum over the index range. -/
theorem list_map_sum_eq_range (f : ℝ → ℝ) (z : List ℝ) :
    (z.map f).sum = ∑ i ∈ Finset.range z.length, f (z.getD i 0) := by
  induction z with
  | nil => simp
  | cons a t ih =>
    rw [List.map_cons, List.sum_cons, List.length_cons, Finset.sum_range_succ']
    simp [ih, add_comm]

/-- Squared elementwise differences against a constant vector. -/
theorem zipWith_sq_replicate (c : ℝ) (l : List ℝ) :
    List.zipWith (fun a b => (a - b) ^ 2) (List.replicate l.length c) l
      = l.map (fun x => (c - x) ^ 2) := by
  induction l with
  | nil => simp
  | cons a t ih => simp [List.replicate_succ, ih]

/-- Minkowski inequality for finite sums of squares. -/
theorem sqrt_sum_sq_add_le (n : ℕ) (u v : ℕ → ℝ) :
    Real.sqrt (∑ i ∈ Finset.range n, (u i + v i) ^ 2) ≤
      Real.sqrt (∑ i ∈ Finset.range n, u i ^ 2) +
        Real.sqrt (∑ i ∈ Finset.range n, v i ^ 2) := by
  have hA0 : 0 ≤ ∑ i ∈ Finset.range n, u i ^ 2 :=
    Finset.sum_nonneg fun i _ => sq_nonneg _
  have hB0 : 0 ≤ ∑ i ∈ Finset.range n, v i ^ 2 :=
    Finset.sum_nonneg fun i _ => sq_nonneg _
  have hCS : ∑ i ∈ Finset.range n, u i * v i ≤
      Real.sqrt (∑ i ∈ Finset.range n, u i ^ 2) *
        Real.sqrt (∑ i ∈ Finset.range n, v i ^ 2) :=
    Real.sum_mul_le_sqrt_mul_sqrt _ _ _
  have hexp : ∑ i ∈ Finset.range n, (u i + v i) ^ 2
      = (∑ i ∈ Finset.range n, u i ^ 2) +
        2 * (∑ i ∈ Finset.range n, u i * v i) + ∑ i ∈ Finset.range n, v i ^ 2 := by
    rw [Finset.mul_sum, ← Finset.sum_add_distrib, ← Finset.sum_add_distrib]
    exact Finset.sum_congr rfl fun i _ => by ring
  calc Real.sqrt (∑ i ∈ Finset.range n, (u i + v i) ^ 2)
      ≤ Real.sqrt ((Real.sqrt (∑ i ∈ Finset.range n, u i ^ 2) +
          Real.sqrt (∑ i ∈ Finset.range n, v i ^ 2)) ^ 2) := by
        apply Real.sqrt_le_sqrt
        rw [add_sq, hexp]
        nlinarith [Real.sq_sqrt hA0, Real.sq_sqrt hB0]
    _ = _ := Real.sqrt_sq (by positivity)

/-- Reverse triangle inequality for quadratic means: perturbing a vector
moves the root of its sum of squares by at most the root of the sum of
squared perturbations. -/
theorem abs_sqrt_sum_sq_sub (n : ℕ) (a b : ℕ → ℝ) :
    |Real.sqrt (∑ i ∈ Finset.range n, a i ^ 2) -
      Real.sqrt (∑ i ∈ Finset.range n, b i ^ 2)| ≤
      Real.sqrt (∑ i ∈ Finset.range n, (a i - b i) ^ 2) := by
  rw [abs_sub_le_iff]
  constructor
  · have h := sqrt_sum_sq_add_le n b (fun i => a i - b i)
    simp only [add_sub_cancel] at h
    linarith
  · have h := sqrt_sum_sq_add_le n a (fun i => b i - a i)
    simp only [add_sub_cancel] at h
    have he : ∑ i ∈ Finset.range n, (b i - a i) ^ 2
        = ∑ i ∈ Finset.range n, (a i - b i) ^ 2 :=
      Finset.sum_congr rfl fun i _ => by ring
    rw [he] at h
    linarith

/-- The square root moves a nonnegative number no farther from 1 than the
number itself is. -/
theorem abs_sqrt_sub_one_le {m : ℝ} (hm : 0 ≤ m) :
    |Real.sqrt m - 1| ≤ |m - 1| := by
  have hs := Real.sqrt_nonneg m
  have h1 : m - 1 = (Real.sqrt m - 1) * (Real.sqrt m + 1) := by
    have := Real.mul_self_sqrt hm
    nlinarith
  have h2 : |m - 1| = |Real.sqrt m - 1| * (Real.sqrt m + 1) := by
    rw [h1, abs_mul, abs_of_nonneg (by linarith : (0:ℝ) ≤ Real.sqrt m + 1)]
  rw [h2]
  exact le_mul_of_one_le_right (abs_nonneg _) (by linarith)

/-- A search skips a leading block on which the predicate fails. -/
theorem find?_append_of_forall_false {α : Type} (p : α → Bool) (l₁ l₂ : List α)
    (h : ∀ x ∈ l₁, p x = false) : (l₁ ++ l₂).find? p = l₂.find? p := by
  induction l₁ with
  | nil => simp
  | cons a t ih =>
    rw [List.cons_append, List.find?_cons_of_neg, ih]
    · intro x hx
      exact h x (List.mem_cons_of_mem a hx)
    · simp [h a (List.mem_cons_self a t)]

/-! ## Claim theorems -/

/-- C1, counterexample: the claim that no notebook code catches, checks
or transforms a library failure is false on the sources: the height PRS
notebook (like every R notebook of the repository) opens with
`if(!require(pacman)) install.packages(pacman)`, notebook code that
checks whether loading the pacman package failed and reacts by
installing it instead of letting the failure surface. -/
theorem c1_error_handling_counterexample :
    (allNotebooks.all noErrorHandling) = false ∧
    noErrorHandling nbG204Height = false ∧
    Stmt.ifStmt (Cond.notRequire "pacman") (Stmt.installPkgs ["pacman"]) ∈ nbG204Height := by
  refine ⟨by decide, by decide, by decide⟩

/-- C1, amended: no notebook installs an exception handler (there is no
try/except or tryCatch anywhere), and the only statements that check the
outcome of a library invocation are the package-availability guards
`if(!require(pkg)) install`, enumerated here program by program; all
other failures (missing fields, missing files, network errors) surface
as whatever the called library or CLI raises, uncaught. -/
theorem c1_error_handling_amended :
    (allNotebooks.all (fun p => (allStmts p).all (fun s => !isTryCatch s))) = true ∧
    allNotebooks.map failureChecks =
      [[],
       [Cond.notRequire "pacman"],
       [Cond.notRequire "pacman"],
       [Cond.notRequire "pacman", Cond.notRequire "GenomicRanges",
        Cond.notRequire "SNPlocs.Hsapiens.dbSNP155.GRCh38"],
       [Cond.notRequire "pacman", Cond.notRequire "GenomicRanges",
        Cond.notRequire "VariantAnnotation",
        Cond.notRequire "TxDb.Hsapiens.UCSC.hg38.knownGene",
        Cond.notRequire "BSgenome.Hsapiens.UCSC.hg38"]] := by
  refine ⟨by decide, by decide⟩

/-- C2: in notebook G103, after the two binary-split assignments on
column p1239_i0, the column has the same length, every entry is the
string true or the string false, an entry is false exactly when the
original entry was the string No, and true otherwise (a missing entry
compares as not equal to No and so becomes true). -/
theorem c2_smoking_binary_split (col : List (Option String)) (i : ℕ)
    (h : i < col.length) (h2 : i < (binarySplit col).length) :
    (binarySplit col).length = col.length ∧
    ((binarySplit col).get ⟨i, h2⟩ = some "false" ∨
      (binarySplit col).get ⟨i, h2⟩ = some "true") ∧
    ((binarySplit col).get ⟨i, h2⟩ = some "false" ↔ col.get ⟨i, h⟩ = some "No") ∧
    (col.get ⟨i, h⟩ ≠ some "No" → (binarySplit col).get ⟨i, h2⟩ = some "true") := by
  have hlen : (binarySplit col).length = col.length := by
    simp [binarySplit, binarySplitStep1, binarySplitStep2]
  refine ⟨hlen, ?_⟩
  have hget : (binarySplit col).get ⟨i, h2⟩ =
      (if col.get ⟨i, h⟩ = some "No" then some "false" else some "true") := by
    simp only [binarySplit, binarySplitStep1, binarySplitStep2, List.get_eq_getElem,
      List.getElem_map]
    by_cases hc : col[i] = some "No" <;> simp [hc]
  rw [hget]
  by_cases hc : col.get ⟨i, h⟩ = some "No" <;> simp [hc] <;> exact em _

/-- C2 witness: the binary split evaluated on the concrete column
[No, Yes on most or all days, missing] at index 2 (the missing entry). -/
theorem c2_smoking_binary_split_witness :
    (2 < ([some "No", some "Yes, on most or all days", none] : List (Option String)).length) ∧
    (2 < (binarySplit [some "No", some "Yes, on most or all days", none]).length) ∧
    ((binarySplit [some "No", some "Yes, on most or all days", none]).length =
      ([some "No", some "Yes, on most or all days", none] : List (Option String)).length ∧
     ((binarySplit [some "No", some "Yes, on most or all days", none]).get ⟨2, by decide⟩
        = some "false" ∨
      (binarySplit [some "No", some "Yes, on most or all days", none]).get ⟨2, by decide⟩
        = some "true") ∧
     ((binarySplit [some "No", some "Yes, on most or all days", none]).get ⟨2, by decide⟩
        = some "false" ↔
      ([some "No", some "Yes, on most or all days", none] : List (Option String)).get
        ⟨2, by decide⟩ = some "No") ∧
     (([some "No", some "Yes, on most or all days", none] : List (Option String)).get
        ⟨2, by decide⟩ ≠ some "No" →
      (binarySplit [some "No", some "Yes, on most or all days", none]).get ⟨2, by decide⟩
        = some "true")) :=
  ⟨by decide, by decide,
    c2_smoking_binary_split [some "No", some "Yes, on most or all days", none] 2
      (by decide) (by decide)⟩

/-- C3: the only parallelism control supplied by notebook code is the
integer NCORES handed as the ncores argument of external library calls:
NCORES is assigned the literal 1 in the height PRS notebook and
round(nb_cores()/2) in the hypertension PRS notebook, every ncores
argument anywhere is the variable NCORES (three such calls in the height
notebook, four in the hypertension notebook, none elsewhere), and no
notebook statement invokes a concurrency primitive. -/
theorem c3_parallelism_single_ncores :
    ncoresAssignments nbG204Height = [Arg.num 1] ∧
    ncoresAssignments nbG204Hyper = [Arg.roundHalfNbCores] ∧
    ncoresAssignments nbG103 = [] ∧
    ncoresAssignments nbG206 = [] ∧
    ncoresAssignments nbG207 = [] ∧
    ncoresArgs nbG204Height = [Arg.var "NCORES", Arg.var "NCORES", Arg.var "NCORES"] ∧
    ncoresArgs nbG204Hyper =
      [Arg.var "NCORES", Arg.var "NCORES", Arg.var "NCORES", Arg.var "NCORES"] ∧
    ncoresArgs nbG103 = [] ∧
    ncoresArgs nbG206 = [] ∧
    ncoresArgs nbG207 = [] ∧
    (allNotebooks.all (fun p => (allStmts p).all (fun s => !isConcurrencyPrimitive s)))
      = true := by
  decide

/-- C4, counterexample: the claim that every notebook follows the order
install/import, CLI fetch, library transform, output is false on the
hypertension PRS notebook, which downloads its phenotype file, reads and
previews it, and only then downloads the genotype files: a CLI fetch
occurs after the transform step has begun, so no nondecreasing step
assignment exists. -/
theorem c4_four_step_order_counterexample :
    conforms nbG204Hyper = false ∧ (allNotebooks.all conforms) = false := by
  refine ⟨by decide, by decide⟩

/-- C4, amended: notebook G103, the height PRS notebook, G206 and G207
each execute in the four-step order install/import, CLI fetch, library
transform, output; the hypertension PRS notebook follows the same order
except that it returns to CLI fetching once after reading its first
input file, and conforms as soon as repeated input fetches are allowed
during the transform step. -/
theorem c4_four_step_order_amended :
    (conforms nbG103 && conforms nbG204Height && conforms nbG206 && conforms nbG207)
      = true ∧
    conformsRefetch nbG204Hyper = true := by
  refine ⟨by decide, by decide⟩

/-- C5: cross-notebook data flow is file-based hand-off without
validation: notebook G103 writes its phenotype table to the CSV file
smoking_bool.csv, the dbSNP notebook G206 and the functional-annotation
notebook G207 both read the CSV height_signif_snp.csv produced by the
GWAS notebook, both pass the columns of the loaded table (chromosome and
physical position fields by name, the rest as extra columns) directly to
makeGRangesFromDataFrame, and neither consuming notebook contains any
validation statement: no assertion call, no conditional on data
contents, no exception handler. -/
theorem c5_file_handoff_no_validation :
    readsPath nbG206 "height_signif_snp.csv" = true ∧
    readsPath nbG207 "./height_signif_snp.csv" = true ∧
    writesPath nbG103 "smoking_bool.csv" = true ∧
    Stmt.libCall (some "snp_gr") "makeGRangesFromDataFrame"
      [("df", Arg.var "snp"), ("seqnames.field", Arg.str "chromosome"),
       ("start.field", Arg.str "physical.pos"), ("end.field", Arg.str "physical.pos"),
       ("keep.extra.columns", Arg.boolLit true)] ∈ allStmts nbG206 ∧
    Stmt.libCall (some "snp_gr") "makeGRangesFromDataFrame"
      [("df", Arg.var "snp"), ("seqnames.field", Arg.str "chromosome"),
       ("start.field", Arg.str "physical.pos"), ("end.field", Arg.str "physical.pos"),
       ("keep.extra.columns", Arg.boolLit true)] ∈ allStmts nbG207 ∧
    ((allStmts nbG206 ++ allStmts nbG207).all (fun s => !isValidationStmt s)) = true := by
  refine ⟨by decide, by decide, by decide, by decide, by decide, by decide⟩

/-- C6: in the height PRS notebook, where the simulated heights are
round(rnorm(n, 177.8, 5.97)), i.e. the rounded values 177.8 + 5.97 t for
standardized draws t, the RMSE of the null model rep(177.8, n) under the
locally defined RMSE(m, o) = sqrt(mean((m - o)^2)) approximates the
simulated standard deviation 5.97: whenever the sample second moment of
the standardized draws is within epsilon of 1 (which is what drawing
them from the standard normal distribution delivers), the RMSE of the
null model is within 5.97 epsilon + 1/2 of 5.97, the 1/2 accounting for
the rounding of the simulated heights. -/
theorem c6_rmse_null_model (z : List ℝ) (ε : ℝ) (hz : z ≠ [])
    (hm : |meanList (z.map (fun t => t ^ 2)) - 1| ≤ ε) :
    |RMSE (nullPredictor z.length) (simHeights z) - simSD| ≤ simSD * ε + 1 / 2 := by
  have hn : 0 < z.length := List.length_pos.2 hz
  have hnR : (0:ℝ) < z.length := by exact_mod_cast hn
  have hsd : (0:ℝ) ≤ simSD := by unfold simSD; norm_num
  set f : ℝ → ℝ := fun t => ((round (simMean + simSD * t) : ℤ) : ℝ) with hf
  set n := z.length with hnn
  -- the three relevant sums over the standardized draws
  set Sd := ∑ i ∈ Finset.range n, (f (z.getD i 0) - simMean) ^ 2 with hSd
  set Su := ∑ i ∈ Finset.range n, (simSD * z.getD i 0) ^ 2 with hSu
  set Sz := ∑ i ∈ Finset.range n, (z.getD i 0) ^ 2 with hSz
  have hSd0 : 0 ≤ Sd := Finset.sum_nonneg fun i _ => sq_nonneg _
  have hSu0 : 0 ≤ Su := Finset.sum_nonneg fun i _ => sq_nonneg _
  have hSz0 : 0 ≤ Sz := Finset.sum_nonneg fun i _ => sq_nonneg _
  -- step 1: the RMSE of the null model is the quadratic mean of the deviations
  have hR : RMSE (nullPredictor n) (simHeights z) = Real.sqrt (Sd / n) := by
    have hsim : simHeights z = z.map f := rfl
    have hlen : (z.map f).length = n := by simp [hnn]
    have h1 : List.zipWith (fun a b => (a - b) ^ 2) (List.replicate n simMean) (z.map f)
        = z.map (fun t => (f t - simMean) ^ 2) := by
      rw [← hlen, zipWith_sq_replicate, List.map_map]
      exact List.map_congr_left fun t _ => by simp; ring
    simp only [RMSE, nullPredictor, meanList, hsim, h1, List.length_map]
    rw [list_map_sum_eq_range]
  -- step 2: the rounding residuals move the quadratic mean by at most 1/2
  have hres : ∀ t : ℝ, |f t - (simMean + simSD * t)| ≤ 1 / 2 := by
    intro t
    rw [abs_sub_comm]
    exact abs_sub_round (simMean + simSD * t)
  have hSv : ∑ i ∈ Finset.range n, ((f (z.getD i 0) - simMean) - simSD * z.getD i 0) ^ 2
      ≤ (n : ℝ) / 4 := by
    have hb : ∀ i ∈ Finset.range n,
        ((f (z.getD i 0) - simMean) - simSD * z.getD i 0) ^ 2 ≤ (1 / 2 : ℝ) ^ 2 := by
      intro i _
      have h := hres (z.getD i 0)
      have h2 := abs_le.1 h
      have he : (f (z.getD i 0) - simMean) - simSD * z.getD i 0
          = f (z.getD i 0) - (simMean + simSD * z.getD i 0) := by ring
      rw [he]
      exact sq_le_sq' (by linarith [h2.1]) h2.2
    calc ∑ i ∈ Finset.range n, ((f (z.getD i 0) - simMean) - simSD * z.getD i 0) ^ 2
        ≤ ∑ _i ∈ Finset.range n, (1 / 2 : ℝ) ^ 2 := Finset.sum_le_sum hb
      _ = (n : ℝ) / 4 := by simp [Finset.sum_const]; ring
  have habs : |Real.sqrt Sd - Real.sqrt Su| ≤ Real.sqrt ((n : ℝ) / 4) := by
    have h := abs_sqrt_sum_sq_sub n (fun i => f (z.getD i 0) - simMean)
      (fun i => simSD * z.getD i 0)
    exact h.trans (Real.sqrt_le_sqrt hSv)
  have hsqrt4 : Real.sqrt ((n : ℝ) / 4) = Real.sqrt n / 2 := by
    rw [show ((n : ℝ) / 4) = (n : ℝ) / (2 : ℝ) ^ 2 by norm_num,
      Real.sqrt_div' _ (by norm_num : (0:ℝ) ≤ (2:ℝ) ^ 2)]
    · rw [Real.sqrt_sq (by norm_num : (0:ℝ) ≤ 2)]
  have hsn : (0:ℝ) < Real.sqrt n := Real.sqrt_pos.2 hnR
  -- step 3: divide through by n
  have hdiv : |Real.sqrt (Sd / n) - Real.sqrt (Su / n)| ≤ 1 / 2 := by
    rw [Real.sqrt_div hSd0, Real.sqrt_div hSu0, div_sub_div_same, abs_div,
      abs_of_nonneg hsn.le]
    rw [div_le_iff₀ hsn]
    calc |Real.sqrt Sd - Real.sqrt Su| ≤ Real.sqrt ((n : ℝ) / 4) := habs
      _ = Real.sqrt n / 2 := hsqrt4
      _ = 1 / 2 * Real.sqrt n := by ring
  -- step 4: the unrounded quadratic mean is simSD times sqrt of the sample moment
  have hmean : meanList (z.map (fun t => t ^ 2)) = Sz / n := by
    simp only [meanList, List.length_map, list_map_sum_eq_range, hSz, hnn]
  have hSuSz : Su = simSD ^ 2 * Sz := by
    rw [hSu, hSz, Finset.mul_sum]
    exact Finset.sum_congr rfl fun i _ => by ring
  have hSum : Real.sqrt (Su / n) = simSD * Real.sqrt (Sz / n) := by
    rw [hSuSz, mul_div_assoc, Real.sqrt_mul (sq_nonneg simSD), Real.sqrt_sq hsd]
  -- step 5: the sample moment is within epsilon of 1
  have hm0 : 0 ≤ Sz / n := div_nonneg hSz0 hnR.le
  have hstep5 : |simSD * Real.sqrt (Sz / n) - simSD| ≤ simSD * ε := by
    have h1 : |Real.sqrt (Sz / n) - 1| ≤ |Sz / n - 1| := abs_sqrt_sub_one_le hm0
    have h2 : |Sz / n - 1| ≤ ε := by rw [← hmean]; exact hm
    calc |simSD * Real.sqrt (Sz / n) - simSD|
        = |simSD * (Real.sqrt (Sz / n) - 1)| := by rw [mul_sub, mul_one]
      _ = simSD * |Real.sqrt (Sz / n) - 1| := by rw [abs_mul, abs_of_nonneg hsd]
      _ ≤ simSD * ε := mul_le_mul_of_nonneg_left (h1.trans h2) hsd
  -- combine
  rw [hSum] at hdiv
  rw [hR]
  calc |Real.sqrt (Sd / n) - simSD|
      ≤ |Real.sqrt (Sd / n) - simSD * Real.sqrt (Sz / n)| +
        |simSD * Real.sqrt (Sz / n) - simSD| := abs_sub_le _ _ _
    _ ≤ 1 / 2 + simSD * ε := add_le_add hdiv hstep5
    _ = simSD * ε + 1 / 2 := by ring

/-- C6 witness: the bound evaluated at the standardized draws [1, -1],
whose sample second moment is exactly 1. -/
theorem c6_rmse_null_model_witness :
    (([1, -1] : List ℝ) ≠ []) ∧
    (|meanList (([1, -1] : List ℝ).map (fun t => t ^ 2)) - 1| ≤ 0) ∧
    |RMSE (nullPredictor ([1, -1] : List ℝ).length) (simHeights [1, -1]) - simSD|
      ≤ simSD * 0 + 1 / 2 :=
  ⟨by simp, by norm_num [meanList],
    c6_rmse_null_model [1, -1] 0 (by simp) (by norm_num [meanList])⟩

/-- C7: every interaction with the project storage area and platform
environment shells out to the platform CLI: the shell commands of each
program are exactly the transcribed dx invocations (environment
inspection dx env and dataset description dx describe in G103, file
downloads dx download in the PRS and annotation notebooks, and upload as
dx mkdir followed by dx upload in G103), every shell command is one of
the five dx forms, and every file path read or written by non-shell
statements is a plain local path with no remote or project qualifier. -/
theorem c7_platform_cli_storage :
    shellCmds nbG103 =
      ["dx env | grep project- | awk -F \x09 \x7bprint $2\x7d",
       "dx describe *dataset | grep  record- | awk -F   \x7bprint $2\x7d",
       "dx mkdir pheno", "dx upload smok* --path pheno/"] ∧
    shellCmds nbG204Height = ["dx download -fr bed_maf/maf_flt_8chroms*"] ∧
    shellCmds nbG204Hyper =
      ["dx download -r pheno/pheno_data_hypertension.csv",
       "dx download -r bed_maf/maf_flt_8chroms*"] ∧
    shellCmds nbG206 = ["dx download gwas/height_signif_snp.csv"] ∧
    shellCmds nbG207 = ["dx download gwas/height_signif_snp.csv"] ∧
    (allNotebooks.all (fun p => (shellCmds p).all dxStorageCmd)) = true ∧
    (allNotebooks.all (fun p => (filePaths p).all isLocalPath)) = true := by
  refine ⟨by decide, by decide, by decide, by decide, by decide, by decide, by decide⟩

/-- C8: in notebook G103 the phenotype field is a named and coded column
of the participant table: find_field locates the eid field as the first
field named eid, locates field 1239 instance 0 as the first field with
the title Current tobacco smoking | Instance 0, and retrieve_fields
returns exactly the columns for that field list in order, each column
with coded values replaced by the meaning the coding assigns and with
unlisted values kept as they are.  The dxdata library is external to the
repository, so its query functions are modelled from the spec. -/
theorem c8_field_query (t t₁ t₂ u₁ u₂ : List PhenoField) (e s : PhenoField)
    (hte : t = t₁ ++ e :: t₂) (hts : t = u₁ ++ s :: u₂)
    (h1 : ∀ g ∈ t₁, g.fname ≠ "eid") (he : e.fname = "eid")
    (h2 : ∀ g ∈ u₁, g.title ≠ smokingTitle) (hst : s.title = smokingTitle)
    (hid : s.fieldId = some 1239) (hidx : s.instanceIdx = some 0) :
    find_field_name t "eid" = some e ∧
    (find_field_title t smokingTitle = some s ∧
      s.fieldId = some 1239 ∧ s.instanceIdx = some 0) ∧
    (retrieve_fields [e, s]).map Prod.fst = [e.fname, s.fname] ∧
    retrieve_fields [e, s] =
      [(e.fname, e.values.map (decodeValue e.coding)),
       (s.fname, s.values.map (decodeValue s.coding))] ∧
    (∀ v mng rest, s.coding = (v, mng) :: rest → decodeValue s.coding v = mng) ∧
    (∀ v, (∀ q ∈ s.coding, q.1 ≠ v) → decodeValue s.coding v = v) := by
  refine ⟨?_, ⟨?_, hid, hidx⟩, by simp [retrieve_fields], by simp [retrieve_fields], ?_, ?_⟩
  · rw [hte, find_field_name, find?_append_of_forall_false]
    · exact List.find?_cons_of_pos _ (by simp [he])
    · intro g hg
      simp [h1 g hg]
  · rw [hts, find_field_title, find?_append_of_forall_false]
    · exact List.find?_cons_of_pos _ (by simp [hst])
    · intro g hg
      simp [h2 g hg]
  · intro v mng rest hcode
    simp [decodeValue, hcode]
  · intro v hv
    have hnone : s.coding.find? (fun q => q.1 == v) = none :=
      List.find?_eq_none.2 (fun q hq => by simp [hv q hq])
    simp [decodeValue, hnone]

/-- C8 witness: the field query evaluated on a concrete two-field
participant table holding the eid field and field 1239 instance 0 with
the coding that maps 0 to No. -/
theorem c8_field_query_witness :
    ([eidFieldWit, smokingFieldWit] = [] ++ eidFieldWit :: [smokingFieldWit]) ∧
    ([eidFieldWit, smokingFieldWit] = [eidFieldWit] ++ smokingFieldWit :: []) ∧
    (∀ g ∈ ([] : List PhenoField), g.fname ≠ "eid") ∧
    eidFieldWit.fname = "eid" ∧
    (∀ g ∈ [eidFieldWit], g.title ≠ smokingTitle) ∧
    smokingFieldWit.title = smokingTitle ∧
    smokingFieldWit.fieldId = some 1239 ∧
    smokingFieldWit.instanceIdx = some 0 ∧
    (find_field_name [eidFieldWit, smokingFieldWit] "eid" = some eidFieldWit ∧
     (find_field_title [eidFieldWit, smokingFieldWit] smokingTitle = some smokingFieldWit ∧
       smokingFieldWit.fieldId = some 1239 ∧ smokingFieldWit.instanceIdx = some 0) ∧
     (retrieve_fields [eidFieldWit, smokingFieldWit]).map Prod.fst =
       [eidFieldWit.fname, smokingFieldWit.fname] ∧
     retrieve_fields [eidFieldWit, smokingFieldWit] =
       [(eidFieldWit.fname, eidFieldWit.values.map (decodeValue eidFieldWit.coding)),
        (smokingFieldWit.fname,
          smokingFieldWit.values.map (decodeValue smokingFieldWit.coding))] ∧
     (∀ v mng rest, smokingFieldWit.coding = (v, mng) :: rest →
        decodeValue smokingFieldWit.coding v = mng) ∧
     (∀ v, (∀ q ∈ smokingFieldWit.coding, q.1 ≠ v) →
        decodeValue smokingFieldWit.coding v = v)) :=
  ⟨by decide, by decide, by decide, by decide, by decide, by decide, by decide, by decide,
    c8_field_query [eidFieldWit, smokingFieldWit] [] [smokingFieldWit] [eidFieldWit] []
      eidFieldWit smokingFieldWit (by decide) (by decide) (by decide) (by decide)
      (by decide) (by decide) (by decide) (by decide)⟩

/-- C9: in both PRS notebooks the train/test split partitions the rows of
the genotype matrix: when ind.train is drawn from the row indices of a
matrix with n rows, ind.test = setdiff(rows_along(G), ind.train) covers
together with ind.train exactly the row indices, and every row index lies
in exactly one of the two. -/
theorem c9_train_test_partition (n : ℕ) (train : List ℕ)
    (hsub : ∀ i ∈ train, i ∈ rows_along n) :
    (∀ i, (i ∈ train ∨ i ∈ setdiff (rows_along n) train) ↔ i ∈ rows_along n) ∧
    ∀ i ∈ rows_along n,
      (i ∈ train ∧ i ∉ setdiff (rows_along n) train) ∨
      (i ∉ train ∧ i ∈ setdiff (rows_along n) train) := by
  have hmem : ∀ i, i ∈ setdiff (rows_along n) train ↔ i ∈ rows_along n ∧ i ∉ train := by
    intro i
    simp [setdiff, List.mem_dedup, List.mem_filter]
  constructor
  · intro i
    constructor
    · intro hi
      rcases hi with hi | hi
      · exact hsub i hi
      · exact ((hmem i).1 hi).1
    · intro hi
      by_cases ht : i ∈ train
      · exact Or.inl ht
      · exact Or.inr ((hmem i).2 ⟨hi, ht⟩)
  · intro i hi
    by_cases ht : i ∈ train
    · exact Or.inl ⟨ht, fun hc => ((hmem i).1 hc).2 ht⟩
    · exact Or.inr ⟨ht, (hmem i).2 ⟨hi, ht⟩⟩

/-- C9 witness: the partition evaluated for a matrix with 5 rows and the
training rows [2, 4]. -/
theorem c9_train_test_partition_witness :
    (∀ i ∈ ([2, 4] : List ℕ), i ∈ rows_along 5) ∧
    ((∀ i, (i ∈ ([2, 4] : List ℕ) ∨ i ∈ setdiff (rows_along 5) [2, 4]) ↔
        i ∈ rows_along 5) ∧
     ∀ i ∈ rows_along 5,
       (i ∈ ([2, 4] : List ℕ) ∧ i ∉ setdiff (rows_along 5) [2, 4]) ∨
       (i ∉ ([2, 4] : List ℕ) ∧ i ∈ setdiff (rows_along 5) [2, 4])) :=
  ⟨by decide, c9_train_test_partition 5 [2, 4] (by decide)⟩

/-- C10: in the hypertension PRS notebook every record of the analysis
sample smpl satisfies either all three indicators (a case) or none of
them (a control), mixed patterns are never included, and the training
label as.numeric(medical_records & self_reported & blood_pressure_cutoff)
is 1 exactly on the cases and 0 exactly on the controls of the sample. -/
theorem c10_cases_controls (pheno ctrlSample : List Participant)
    (hctrl : ∀ r ∈ ctrlSample, r ∈ controlRows pheno) :
    ∀ r ∈ smplOf pheno ctrlSample,
      (isCase r = true ∨ isControl r = true) ∧
      ¬(isCase r = true ∧ isControl r = true) ∧
      (trainLabel r = 1 ↔ isCase r = true) ∧
      (trainLabel r = 0 ↔ isControl r = true) := by
  intro r hr
  have hcc : isCase r = true ∨ isControl r = true := by
    rcases List.mem_append.1 hr with hx | hx
    · exact Or.inl (List.mem_filter.1 hx).2
    · exact Or.inr (List.mem_filter.1 (hctrl r hx)).2
  rcases r with ⟨e, m, s, b⟩
  cases m <;> cases s <;> cases b <;>
    simp_all [isCase, isControl, trainLabel]

/-- C10 witness: the case/control property evaluated on a concrete
phenotype table with a case, a control and a mixed record, the control
sample holding the control record. -/
theorem c10_cases_controls_witness :
    (∀ r ∈ ([⟨2, false, false, false⟩] : List Participant),
        r ∈ controlRows
          [⟨1, true, true, true⟩, ⟨2, false, false, false⟩, ⟨3, true, false, true⟩]) ∧
    ∀ r ∈ smplOf
        [⟨1, true, true, true⟩, ⟨2, false, false, false⟩, ⟨3, true, false, true⟩]
        [⟨2, false, false, false⟩],
      (isCase r = true ∨ isControl r = true) ∧
      ¬(isCase r = true ∧ isControl r = true) ∧
      (trainLabel r = 1 ↔ isCase r = true) ∧
      (trainLabel r = 0 ↔ isControl r = true) :=
  ⟨by decide,
    c10_cases_controls
      [⟨1, true, true, true⟩, ⟨2, false, false, false⟩, ⟨3, true, false, true⟩]
      [⟨2, false, false, false⟩] (by decide)⟩
